import Mathlib

/-!
Verification of the resume-scoring adjustment module (normalModeScoring) and the
job-configuration service (ApifyService) of this repository.

Modelling conventions:
- JavaScript numbers are modelled as rationals; `Math.round` is `jsRound`
  (floor of x + 1/2, which is how JS rounds ties toward positive infinity).
- TypeScript optional fields and values guarded by `?.` are modelled as `Option`.
- Regular-expression tests on the raw resume text are modelled by an explicit
  backtracking matcher (`RItem`, `matchItems`) over the character lists of the
  text, with word boundaries handled positionally as in JS regexes.
- Candidate levels travel as strings at runtime (the union type lives in a file
  outside this repository), so `CandidateLevel` is `String`.
-/

-- ============================================================================
-- Basic types of the scoring module
-- ============================================================================

/-- Quality label of `InputQualityAssessment.quality`
(union type in the source: excellent | good | fair | poor | invalid). -/
inductive Quality where
  | excellent
  | good
  | fair
  | poor
  | invalid
deriving DecidableEq, Repr

/-- Confidence level. Modelled from the spec: the `ConfidenceLevel` type comes
from `../types/resume`, which is not part of this repository; the spec fixes it
as the three-level enum Low | Medium | High. -/
inductive ConfidenceLevel where
  | High
  | Medium
  | Low
deriving DecidableEq, Repr

/-- Candidate level. Modelled from the spec: `CandidateLevel` is declared in
`./resumeScoringFixes`, which is not part of this repository; at runtime the
value is a string drawn from fresher / junior / mid / senior (the source
switches on it with a default case, so any string is accepted). -/
abbrev CandidateLevel := String

/-- `contentMetrics` record of `InputQualityAssessment`. -/
structure ContentMetrics where
  wordCount : Nat
  sectionCount : Nat
  hasContactInfo : Bool
  hasSkills : Bool
  hasEducation : Bool
  hasExperience : Bool
  hasProjects : Bool
  bulletCount : Nat
  uniqueSkillCount : Nat
deriving DecidableEq, Repr

/-- `InputQualityAssessment` record of the source. -/
structure InputQualityAssessment where
  isValid : Bool
  quality : Quality
  qualityScore : Nat
  issues : List String
  contentMetrics : ContentMetrics
deriving DecidableEq, Repr

/-- `NormalizedWeights` record of the source (ten scoring tiers). -/
structure NormalizedWeights where
  skills_keywords : Nat
  experience : Nat
  education : Nat
  projects : Nat
  certifications : Nat
  basic_structure : Nat
  content_structure : Nat
  competitive : Nat
  culture_fit : Nat
  qualitative : Nat
deriving DecidableEq, Repr

/-- `ScoreAdjustment` record of the source. -/
structure ScoreAdjustment where
  baseScore : Rat
  qualityMultiplier : Rat
  candidateLevelBonus : Rat
  finalScore : Int
  explanation : String
deriving DecidableEq, Repr

/-- JS `Math.round`: round half toward positive infinity. -/
def jsRound (x : Rat) : Int := ⌊x + 1 / 2⌋

-- ============================================================================
-- getNormalizedWeights (source lines 186-249)
-- ============================================================================

/-- `getNormalizedWeights`: switch over the candidate level with the senior
table doubling as the default branch. -/
def getNormalizedWeights (candidateLevel : CandidateLevel) : NormalizedWeights :=
  if candidateLevel = "fresher" then
    { skills_keywords := 35, experience := 0, education := 18, projects := 20,
      certifications := 8, basic_structure := 6, content_structure := 6,
      competitive := 3, culture_fit := 2, qualitative := 2 }
  else if candidateLevel = "junior" then
    { skills_keywords := 30, experience := 12, education := 12, projects := 16,
      certifications := 6, basic_structure := 7, content_structure := 8,
      competitive := 4, culture_fit := 3, qualitative := 2 }
  else if candidateLevel = "mid" then
    { skills_keywords := 25, experience := 25, education := 6, projects := 10,
      certifications := 5, basic_structure := 8, content_structure := 10,
      competitive := 5, culture_fit := 3, qualitative := 3 }
  else
    { skills_keywords := 22, experience := 30, education := 4, projects := 8,
      certifications := 4, basic_structure := 8, content_structure := 10,
      competitive := 7, culture_fit := 4, qualitative := 3 }

-- ============================================================================
-- applyNormalizedWeights (source lines 254-274)
-- ============================================================================

/-- One tier record of `TierScores`. Modelled from the spec: `TierScores` comes
from `../types/resume`, which is not part of this repository; the spec gives
each tier as a record with `percentage`, `weight`, `weighted_contribution` and
further fields, the latter stood in for by the `rest` field (the source copies
them unchanged with an object spread). -/
structure Tier where
  percentage : Rat
  weight : Rat
  weighted_contribution : Rat
  rest : String
deriving DecidableEq, Repr

/-- `TierScores`, iterated with `Object.entries`: a keyed list of tiers. -/
abbrev TierScores := List (String × Tier)

/-- JS property access `weights[tierKey]` on a `NormalizedWeights` object:
defined for the ten declared keys, `undefined` (`none`) for any other key. -/
def weightsField (w : NormalizedWeights) (key : String) : Option Nat :=
  if key = "skills_keywords" then some w.skills_keywords
  else if key = "experience" then some w.experience
  else if key = "education" then some w.education
  else if key = "projects" then some w.projects
  else if key = "certifications" then some w.certifications
  else if key = "basic_structure" then some w.basic_structure
  else if key = "content_structure" then some w.content_structure
  else if key = "competitive" then some w.competitive
  else if key = "culture_fit" then some w.culture_fit
  else if key = "qualitative" then some w.qualitative
  else none

/-- `applyNormalizedWeights`: for each entry of the input map, replace the
weight with the table value (`?? tier.weight` fallback) and recompute
`weighted_contribution = percentage * newWeight / 100`. -/
def applyNormalizedWeights (tierScores : TierScores) (candidateLevel : CandidateLevel) :
    TierScores :=
  let weights := getNormalizedWeights candidateLevel
  tierScores.map (fun kt =>
    let newWeight : Rat := ((weightsField weights kt.1).map (fun n => (n : Rat))).getD kt.2.weight
    (kt.1, { kt.2 with
               weight := newWeight,
               weighted_contribution := kt.2.percentage * newWeight / 100 }))

-- ============================================================================
-- calculateAdjustedScore (source lines 284-336)
-- ============================================================================

/-- `calculateAdjustedScore`: quality multiplier lookup, fresher bonus,
rounded and clamped final score. -/
def calculateAdjustedScore (baseScore : Rat) (inputQuality : InputQualityAssessment)
    (candidateLevel : CandidateLevel) : ScoreAdjustment :=
  let me : Rat × String :=
    match inputQuality.quality with
    | .excellent => (1.0, "Full scoring applied - excellent input quality")
    | .good => (0.95, "Minor quality adjustment applied")
    | .fair => (0.85, "Quality adjustment applied - some content missing")
    | .poor => (0.70, "Significant quality adjustment - incomplete resume")
    | .invalid => (0.40, "Major quality penalty - resume appears invalid or empty")
  let qualityMultiplier := me.1
  let be : Rat × String :=
    if candidateLevel = "fresher" ∧ inputQuality.quality ≠ .invalid then
      if inputQuality.contentMetrics.hasProjects = true ∧
          5 ≤ inputQuality.contentMetrics.uniqueSkillCount then
        (5, me.2 ++ " | Fresher bonus applied for strong projects/skills")
      else (0, me.2)
    else (0, me.2)
  let candidateLevelBonus := be.1
  let adjustedBase := baseScore * qualityMultiplier
  let finalScore : Int := min 100 (max 0 (jsRound (adjustedBase + candidateLevelBonus)))
  { baseScore := baseScore, qualityMultiplier := qualityMultiplier,
    candidateLevelBonus := candidateLevelBonus, finalScore := finalScore,
    explanation := be.2 }

-- ============================================================================
-- calculateAlignedConfidence (source lines 346-393)
-- ============================================================================

/-- `calculateAlignedConfidence`: score short-circuit at 85, then point
accumulation from quality, score band, JD presence and content completeness. -/
def calculateAlignedConfidence (score : Rat) (inputQuality : InputQualityAssessment)
    (hasJD : Bool) : ConfidenceLevel :=
  if 85 ≤ score then .High
  else
    let p1 : Nat :=
      match inputQuality.quality with
      | .excellent => 4
      | .good => 3
      | .fair => 2
      | .poor => 1
      | .invalid => 0
    let p2 : Nat := p1 +
      (if 75 ≤ score then 4 else if 65 ≤ score then 3
       else if 55 ≤ score then 2 else if 45 ≤ score then 1 else 0)
    let p3 : Nat := p2 + (if hasJD then 1 else 0)
    let m := inputQuality.contentMetrics
    let sectionsPresent :=
      ([m.hasContactInfo, m.hasSkills, m.hasEducation,
        m.hasExperience || m.hasProjects].filter (fun b => b)).length
    let confidencePoints : Nat := p3 + (if 4 ≤ sectionsPresent then 1 else 0)
    if 7 ≤ confidencePoints then .High
    else if 4 ≤ confidencePoints then .Medium
    else .Low

-- ============================================================================
-- Regex model: character classes, items, backtracking matcher
-- ============================================================================

/-- JS regex `\s` (whitespace class), on the ASCII range the source texts use. -/
def isSpaceJS (c : Char) : Bool := c.isWhitespace

/-- JS regex `\w` (word character class): letters, digits, underscore. -/
def isWordCharJS (c : Char) : Bool := c.isAlphanum || c = '_'

/-- One regex item of the patterns used by the source:
a literal character (case-insensitive), an optional literal (`X?`),
a whitespace gap (`\s*`), or a character class with a repetition range
(`[..]{lo,hi}`, `hi = none` meaning unbounded as in `+`). -/
inductive RItem where
  | req (c : Char)
  | opt (c : Char)
  | gap
  | seg (f : Char → Bool) (lo : Nat) (hi : Option Nat)

/-- All ways to consume a run of characters satisfying `f` from the front:
returns (number consumed, last character consumed so far, remaining text). -/
def segSplits (f : Char → Bool) (last : Option Char) : List Char →
    List (Nat × Option Char × List Char)
  | [] => [(0, last, [])]
  | c :: cs =>
      (0, last, c :: cs) ::
        (if f c then (segSplits f (some c) cs).map (fun x => (x.1 + 1, x.2)) else [])

/-- Backtracking matcher: all ways a sequence of items can match a prefix of
`cs`, returning for each the last consumed character (for the trailing word
boundary) and the remaining text. `last` is the character just before `cs`. -/
def matchItems : List RItem → Option Char → List Char → List (Option Char × List Char)
  | [], last, cs => [(last, cs)]
  | .req _ :: _, _, [] => []
  | .req c :: ps, _, d :: cs =>
      if d.toLower = c.toLower then matchItems ps (some d) cs else []
  | .opt c :: ps, last, cs =>
      matchItems ps last cs ++
        (match cs with
         | d :: cs2 => if d.toLower = c.toLower then matchItems ps (some d) cs2 else []
         | [] => [])
  | .gap :: ps, last, cs =>
      (segSplits isSpaceJS last cs).flatMap (fun x => matchItems ps x.2.1 x.2.2)
  | .seg f lo hi :: ps, last, cs =>
      (segSplits f last cs).flatMap (fun x =>
        if lo ≤ x.1 && (match hi with | none => true | some h => x.1 ≤ h) then
          matchItems ps x.2.1 x.2.2
        else [])

/-- Is the (possibly absent) character a word character? Absent = no. -/
def wordAt (oc : Option Char) : Bool :=
  match oc with
  | some c => isWordCharJS c
  | none => false

/-- JS `\b` at the position between `prev` and the head of `cs`. -/
def boundaryAt (prev : Option Char) (cs : List Char) : Bool :=
  wordAt prev != wordAt cs.head?

/-- `regex.test` for a pattern of the form `\b(alt1|alt2|...)\b` with the `i`
flag: try every start position, requiring a word boundary before and after. -/
def testAltsFrom (alts : List (List RItem)) (prev : Option Char) :
    List Char → Bool := fun cs =>
  (alts.any (fun alt =>
      boundaryAt prev cs &&
        (matchItems alt prev cs).any (fun x => boundaryAt x.1 x.2))) ||
    (match cs with
     | [] => false
     | c :: cs2 => testAltsFrom alts (some c) cs2)

/-- `regex.test` for `\b(...)\b` patterns, from the start of the text. -/
def testWordPattern (alts : List (List RItem)) (text : String) : Bool :=
  testAltsFrom alts none text.data

/-- `regex.test` for an unanchored pattern without boundaries (email, phone):
try every start position. -/
def testSeqFrom (items : List RItem) (prev : Option Char) : List Char → Bool := fun cs =>
  (!(matchItems items prev cs).isEmpty) ||
    (match cs with
     | [] => false
     | c :: cs2 => testSeqFrom items (some c) cs2)

/-- `regex.test` for an unanchored boundary-free pattern on a string. -/
def testSeqPattern (items : List RItem) (text : String) : Bool :=
  testSeqFrom items none text.data

/-- Literal word as a sequence of required characters. -/
def reqStr (s : String) : List RItem := s.data.map RItem.req

-- ============================================================================
-- The concrete patterns of the source (helper functions, lines 429-539)
-- ============================================================================

/-- The nine section patterns of `countSections`. -/
def sectionPatterns : List (List (List RItem)) :=
  [ [reqStr "EXPERIENCE",
     reqStr "WORK" ++ [RItem.gap] ++ reqStr "EXPERIENCE",
     reqStr "EMPLOYMENT",
     reqStr "PROFESSIONAL" ++ [RItem.gap] ++ reqStr "EXPERIENCE"],
    [reqStr "EDUCATION", reqStr "ACADEMIC", reqStr "QUALIFICATIONS"],
    [reqStr "SKILLS",
     reqStr "TECHNICAL" ++ [RItem.gap] ++ reqStr "SKILLS",
     reqStr "CORE" ++ [RItem.gap] ++ reqStr "COMPETENCIES"],
    [reqStr "PROJECTS",
     reqStr "PERSONAL" ++ [RItem.gap] ++ reqStr "PROJECTS",
     reqStr "ACADEMIC" ++ [RItem.gap] ++ reqStr "PROJECTS"],
    [reqStr "CERTIFICATION" ++ [RItem.opt 'S'],
     reqStr "CERTIFICATE" ++ [RItem.opt 'S'],
     reqStr "LICENSE" ++ [RItem.opt 'S']],
    [reqStr "SUMMARY", reqStr "OBJECTIVE", reqStr "PROFILE",
     reqStr "ABOUT" ++ [RItem.gap] ++ reqStr "ME"],
    [reqStr "ACHIEVEMENT" ++ [RItem.opt 'S'],
     reqStr "AWARD" ++ [RItem.opt 'S'],
     reqStr "HONOR" ++ [RItem.opt 'S']],
    [reqStr "PUBLICATION" ++ [RItem.opt 'S'], reqStr "RESEARCH"],
    [reqStr "LANGUAGE" ++ [RItem.opt 'S'],
     reqStr "INTEREST" ++ [RItem.opt 'S'],
     reqStr "HOBBIE" ++ [RItem.opt 'S']] ]

/-- `countSections`: number of the nine patterns that match the text. -/
def countSections (text : String) : Nat :=
  (sectionPatterns.filter (fun p => testWordPattern p text)).length

/-- Character class `[\w.-]` of the email pattern. -/
def emailCls (c : Char) : Bool := isWordCharJS c || c = '.' || c = '-'

/-- Email pattern of `checkContactInfo`. -/
def emailPattern : List RItem :=
  [RItem.seg emailCls 1 none, RItem.req '@', RItem.seg emailCls 1 none,
   RItem.req '.', RItem.seg isWordCharJS 1 none]

/-- Separator class of the phone pattern. -/
def phoneSepCls (c : Char) : Bool := c = '-' || isSpaceJS c || c = '.'

/-- Phone pattern of `checkContactInfo`. -/
def phonePattern : List RItem :=
  [RItem.opt '+', RItem.opt '(', RItem.seg Char.isDigit 1 (some 3), RItem.opt ')',
   RItem.seg phoneSepCls 0 (some 1), RItem.opt '(', RItem.seg Char.isDigit 1 (some 4),
   RItem.opt ')', RItem.seg phoneSepCls 0 (some 1), RItem.seg Char.isDigit 1 (some 4),
   RItem.seg phoneSepCls 0 (some 1), RItem.seg Char.isDigit 1 (some 9)]

/-- `checkContactInfo`: email-shaped or phone-shaped substring. -/
def checkContactInfo (text : String) : Bool :=
  testSeqPattern emailPattern text || testSeqPattern phonePattern text

/-- Skills section header pattern of `checkSkillsPresence`. -/
def skillsSectionPattern : List (List RItem) :=
  [reqStr "SKILLS",
   reqStr "TECHNICAL" ++ [RItem.gap] ++ reqStr "SKILLS",
   reqStr "CORE" ++ [RItem.gap] ++ reqStr "COMPETENCIES"]

/-- Known-technology keyword pattern of `checkSkillsPresence`. -/
def techKeywordPattern : List (List RItem) :=
  [reqStr "javascript", reqStr "python", reqStr "java", reqStr "react",
   reqStr "node", reqStr "sql", reqStr "aws", reqStr "docker", reqStr "git"]

/-- The regex fallback of `checkSkillsPresence`: skills section header OR
known-technology keyword. -/
def skillsTextFallback (text : String) : Bool :=
  testWordPattern skillsSectionPattern text || testWordPattern techKeywordPattern text

-- ============================================================================
-- Structured resume data (imported types, modelled from the spec)
-- ============================================================================

/-- One skills category. Modelled from the spec: `ResumeData` comes from
`../types/resume`, which is not part of this repository; the spec describes
skills categories carrying a skill list, which the source guards with `?.`. -/
structure SkillCategory where
  list : Option (List String)
deriving DecidableEq, Repr

/-- One work-experience entry, carrying an optional bullet list. -/
structure WorkExperienceEntry where
  bullets : Option (List String)
deriving DecidableEq, Repr

/-- One project entry, carrying an optional bullet list. -/
structure ProjectEntry where
  bullets : Option (List String)
deriving DecidableEq, Repr

/-- Parsed resume structure. Modelled from the spec: skills categories with
skill lists, education entries (only their count is consulted, so they are
stood in for by strings), work-experience entries with bullets, project
entries with bullets; every field is optional as the source guards each with
`?.`. -/
structure ResumeData where
  skills : Option (List SkillCategory)
  education : Option (List String)
  workExperience : Option (List WorkExperienceEntry)
  projects : Option (List ProjectEntry)
deriving DecidableEq, Repr

/-- `NormalModeInput` record of the source. -/
structure NormalModeInput where
  resumeText : String
  resumeData : Option ResumeData
  userType : Option String
deriving DecidableEq, Repr

-- ============================================================================
-- Presence checks (source lines 451-492)
-- ============================================================================

/-- `checkSkillsPresence`: when `resumeData?.skills` is a non-empty array the
structured check decides; otherwise the regex fallback on the raw text. -/
def checkSkillsPresence (text : String) (resumeData : Option ResumeData) : Bool :=
  match resumeData with
  | some rd =>
      match rd.skills with
      | some skills =>
          if 0 < skills.length then
            skills.any (fun s =>
              match s.list with
              | some l => 0 < l.length
              | none => false)
          else skillsTextFallback text
      | none => skillsTextFallback text
  | none => skillsTextFallback text

/-- Education section pattern of `checkEducationPresence`. -/
def educationSectionPattern : List (List RItem) :=
  [reqStr "EDUCATION", reqStr "ACADEMIC", reqStr "QUALIFICATIONS"]

/-- Degree keyword pattern of `checkEducationPresence`. -/
def degreePattern : List (List RItem) :=
  [reqStr "bachelor", reqStr "master",
   [RItem.req 'b', RItem.opt '.', RItem.req 's', RItem.opt '.'],
   [RItem.req 'm', RItem.opt '.', RItem.req 's', RItem.opt '.'],
   [RItem.req 'b', RItem.opt '.', RItem.req 'e', RItem.opt '.'],
   [RItem.req 'm', RItem.opt '.', RItem.req 'e', RItem.opt '.'],
   [RItem.req 'b', RItem.opt '.'] ++ reqStr "tech",
   [RItem.req 'm', RItem.opt '.'] ++ reqStr "tech",
   reqStr "mba", reqStr "phd"]

/-- `checkEducationPresence`: any structured education entry, else education
section header OR degree keyword in the text. -/
def checkEducationPresence (text : String) (resumeData : Option ResumeData) : Bool :=
  match resumeData with
  | some rd =>
      match rd.education with
      | some edu =>
          if 0 < edu.length then true
          else testWordPattern educationSectionPattern text ||
            testWordPattern degreePattern text
      | none => testWordPattern educationSectionPattern text ||
          testWordPattern degreePattern text
  | none => testWordPattern educationSectionPattern text ||
      testWordPattern degreePattern text

/-- Experience section pattern of `checkExperiencePresence`. -/
def experienceSectionPattern : List (List RItem) :=
  [reqStr "EXPERIENCE",
   reqStr "WORK" ++ [RItem.gap] ++ reqStr "EXPERIENCE",
   reqStr "EMPLOYMENT"]

/-- Action-verb pattern of `checkExperiencePresence`. -/
def jobIndicatorPattern : List (List RItem) :=
  [reqStr "worked", reqStr "developed", reqStr "managed", reqStr "led",
   reqStr "created", reqStr "implemented", reqStr "designed"]

/-- `checkExperiencePresence`: a structured entry with a non-empty bullet list,
else experience section header AND action-verb keyword in the text. -/
def checkExperiencePresence (text : String) (resumeData : Option ResumeData) : Bool :=
  match resumeData with
  | some rd =>
      match rd.workExperience with
      | some ws =>
          if 0 < ws.length then
            ws.any (fun exp =>
              match exp.bullets with
              | some bs => 0 < bs.length
              | none => false)
          else testWordPattern experienceSectionPattern text &&
            testWordPattern jobIndicatorPattern text
      | none => testWordPattern experienceSectionPattern text &&
          testWordPattern jobIndicatorPattern text
  | none => testWordPattern experienceSectionPattern text &&
      testWordPattern jobIndicatorPattern text

/-- Projects section pattern of `checkProjectsPresence`. -/
def projectsSectionPattern : List (List RItem) :=
  [reqStr "PROJECTS",
   reqStr "PERSONAL" ++ [RItem.gap] ++ reqStr "PROJECTS",
   reqStr "ACADEMIC" ++ [RItem.gap] ++ reqStr "PROJECTS"]

/-- `checkProjectsPresence`: a structured project with a non-empty bullet list,
else projects section header in the text. -/
def checkProjectsPresence (text : String) (resumeData : Option ResumeData) : Bool :=
  match resumeData with
  | some rd =>
      match rd.projects with
      | some ps =>
          if 0 < ps.length then
            ps.any (fun p =>
              match p.bullets with
              | some bs => 0 < bs.length
              | none => false)
          else testWordPattern projectsSectionPattern text
      | none => testWordPattern projectsSectionPattern text
  | none => testWordPattern projectsSectionPattern text

-- ============================================================================
-- countBulletPoints (source lines 494-508)
-- ============================================================================

/-- Bullet glyph class of the bullet pattern. -/
def isBulletGlyph (c : Char) : Bool := c = '•' || c = '-' || c = '*'

/-- Drop the longest whitespace run from the front. -/
def dropWS : List Char → List Char
  | [] => []
  | c :: cs => if isSpaceJS c then dropWS cs else c :: cs

theorem dropWS_length (cs : List Char) : (dropWS cs).length ≤ cs.length := by
  induction cs with
  | nil => simp [dropWS]
  | cons c cs ih =>
      by_cases h : isSpaceJS c
      · simp [dropWS, h]; omega
      · simp [dropWS, h]

/-- Try the bullet pattern (whitespace run, glyph, one whitespace character)
at the current position; on success return the final consumed whitespace
character and the remaining text. -/
def tryBullet (cs : List Char) : Option (Char × List Char) :=
  match dropWS cs with
  | g :: w :: rest => if isBulletGlyph g && isSpaceJS w then some (w, rest) else none
  | _ => none

theorem tryBullet_length {cs : List Char} {w : Char} {rest : List Char}
    (h : tryBullet cs = some (w, rest)) : rest.length + 2 ≤ cs.length := by
  unfold tryBullet at h
  have hd := dropWS_length cs
  cases hdrop : dropWS cs with
  | nil => rw [hdrop] at h; simp at h
  | cons g t =>
      cases t with
      | nil => rw [hdrop] at h; simp at h
      | cons w2 rest2 =>
          rw [hdrop] at h
          rw [hdrop] at hd
          by_cases hb : isBulletGlyph g && isSpaceJS w2
          · simp [hb] at h
            obtain ⟨hw, hr⟩ := h
            subst hr
            simp at hd
            omega
          · simp [hb] at h

/-- Count of matches of the bullet pattern, scanning with the JS `gm` flags:
each match must start at a line start (position 0 or just after a newline);
on success scanning resumes after the match, on failure one character later.
The fuel argument only bounds the recursion so that the definition reduces in
the kernel: every step consumes at least one character of the text (at least
two on a successful match, by `tryBullet_length`), so fuel equal to the text
length, as supplied by `bulletScan`, is never exhausted. -/
def bulletScanAux : Nat → Bool → List Char → Nat
  | 0, _, _ => 0
  | _, _, [] => 0
  | fuel + 1, lineStart, c :: cs =>
      if lineStart then
        match tryBullet (c :: cs) with
        | some (w, rest) => 1 + bulletScanAux fuel (w == '\n') rest
        | none => bulletScanAux fuel (c == '\n') cs
      else bulletScanAux fuel (c == '\n') cs

/-- Count of bullet-pattern matches in a text (see `bulletScanAux`). -/
def bulletScan (lineStart : Bool) (cs : List Char) : Nat :=
  bulletScanAux cs.length lineStart cs

/-- `countBulletPoints`: structured bullet totals from work experience and
projects, compared with the count of bullet lines in the text, maximum taken. -/
def countBulletPoints (text : String) (resumeData : Option ResumeData) : Nat :=
  let structuredCount : Nat :=
    (match resumeData with
     | some rd =>
         (match rd.workExperience with
          | some ws => ws.foldl (fun sum exp =>
              sum + (match exp.bullets with
                     | some bs => bs.length
                     | none => 0)) 0
          | none => 0) +
         (match rd.projects with
          | some ps => ps.foldl (fun sum proj =>
              sum + (match proj.bullets with
                     | some bs => bs.length
                     | none => 0)) 0
          | none => 0)
     | none => 0)
  let textBullets := bulletScan true text.data
  max structuredCount textBullets

-- ============================================================================
-- countUniqueSkills (source lines 510-539)
-- ============================================================================

/-- Prefix test used by the substring check. -/
def matchesFront : List Char → List Char → Bool
  | _, [] => true
  | [], _ :: _ => false
  | h :: t, s :: ss => h = s && matchesFront t ss

/-- JS `String.includes`: the needle occurs as a contiguous substring. -/
def containsSub (hay needle : List Char) : Bool :=
  matchesFront hay needle ||
    (match hay with
     | [] => false
     | _ :: t => containsSub t needle)

/-- Lowercase a string character by character (JS `toLowerCase`, ASCII). -/
def lowerStr (s : String) : String := String.mk (s.data.map Char.toLower)

/-- The fixed technology vocabulary of `countUniqueSkills`. -/
def techSkillsVocab : List String :=
  ["javascript", "typescript", "python", "java", "c++", "c#", "go", "rust",
   "ruby", "php",
   "react", "angular", "vue", "node", "express", "django", "flask", "spring",
   "mysql", "postgresql", "mongodb", "redis", "elasticsearch",
   "aws", "azure", "gcp", "docker", "kubernetes", "terraform",
   "git", "jira", "agile", "scrum", "rest", "graphql", "api",
   "html", "css", "sass", "tailwind", "bootstrap",
   "machine learning", "tensorflow", "pytorch", "pandas", "numpy",
   "tableau", "power bi", "excel", "sql"]

/-- `countUniqueSkills`: set of lowercased structured skills united with the
vocabulary terms found as substrings of the lowercased text; cardinality. -/
def countUniqueSkills (text : String) (resumeData : Option ResumeData) : Nat :=
  let structured : List String :=
    match resumeData with
    | some rd =>
        match rd.skills with
        | some cats => cats.flatMap (fun cat =>
            match cat.list with
            | some l => l.map lowerStr
            | none => [])
        | none => []
    | none => []
  let textLower := text.data.map Char.toLower
  let fromText := techSkillsVocab.filter (fun s => containsSub textLower s.data)
  ((structured ++ fromText).dedup).length

-- ============================================================================
-- Word count and metric assembly (source lines 77-102)
-- ============================================================================

/-- Count maximal non-whitespace runs; equals the source's
`trim().split(/\s+/).filter(nonEmpty).length`. -/
def countWordsAux : List Char → Bool → Nat
  | [], _ => 0
  | c :: cs, inWord =>
      if isSpaceJS c then countWordsAux cs false
      else (if inWord then 0 else 1) + countWordsAux cs true

/-- `wordCount` of `assessInputQuality`. -/
def wordCountOf (text : String) : Nat := countWordsAux text.data false

/-- The `contentMetrics` record assembled by `assessInputQuality`. -/
def contentMetricsOfInput (input : NormalModeInput) : ContentMetrics :=
  { wordCount := wordCountOf input.resumeText
    sectionCount := countSections input.resumeText
    hasContactInfo := checkContactInfo input.resumeText
    hasSkills := checkSkillsPresence input.resumeText input.resumeData
    hasEducation := checkEducationPresence input.resumeText input.resumeData
    hasExperience := checkExperiencePresence input.resumeText input.resumeData
    hasProjects := checkProjectsPresence input.resumeText input.resumeData
    bulletCount := countBulletPoints input.resumeText input.resumeData
    uniqueSkillCount := countUniqueSkills input.resumeText input.resumeData }

-- ============================================================================
-- Quality score rubric (source lines 122-176)
-- ============================================================================

/-- Word-count bucket of the quality score (0-20 points). -/
def wordCountPoints (wordCount : Nat) : Nat :=
  if 400 ≤ wordCount then 20
  else if 200 ≤ wordCount then 15
  else if 100 ≤ wordCount then 10
  else if 50 ≤ wordCount then 5
  else 0

/-- Section-presence bucket of the quality score (0-30 points). -/
def sectionPresencePoints (m : ContentMetrics) : Nat :=
  (if m.hasContactInfo then 5 else 0) + (if m.hasSkills then 8 else 0) +
    (if m.hasEducation then 5 else 0) + (if m.hasExperience then 7 else 0) +
    (if m.hasProjects then 5 else 0)

/-- Content-depth bucket of the quality score (0-30 points). -/
def contentDepthPoints (m : ContentMetrics) : Nat :=
  (if 10 ≤ m.bulletCount then 15
   else if 5 ≤ m.bulletCount then 10
   else if 2 ≤ m.bulletCount then 5
   else 0) +
  (if 10 ≤ m.uniqueSkillCount then 15
   else if 5 ≤ m.uniqueSkillCount then 10
   else if 2 ≤ m.uniqueSkillCount then 5
   else 0)

/-- Section-count bucket of the quality score (0-20 points). -/
def sectionCountPoints (sectionCount : Nat) : Nat :=
  if 5 ≤ sectionCount then 20
  else if 3 ≤ sectionCount then 15
  else if 2 ≤ sectionCount then 10
  else if 1 ≤ sectionCount then 5
  else 0

/-- The quality score accumulated by `assessInputQuality`: the four buckets
added in source order. -/
def qualityScoreOfMetrics (m : ContentMetrics) : Nat :=
  wordCountPoints m.wordCount + sectionPresencePoints m + contentDepthPoints m +
    sectionCountPoints m.sectionCount

/-- The quality label / validity chain of `assessInputQuality`
(`isValid` is set to false exactly in the `invalid` branch). -/
def qualityAndValidity (qualityScore : Nat) : Quality × Bool :=
  if 80 ≤ qualityScore then (.excellent, true)
  else if 60 ≤ qualityScore then (.good, true)
  else if 40 ≤ qualityScore then (.fair, true)
  else if 20 ≤ qualityScore then (.poor, true)
  else (.invalid, false)

/-- `assessInputQuality`: metrics, issue list, quality score, label, validity. -/
def assessInputQuality (input : NormalModeInput) : InputQualityAssessment :=
  let m := contentMetricsOfInput input
  let issues : List String :=
    (if m.wordCount < 50 then ["Resume text too short (< 50 words)"] else []) ++
    (if m.wordCount < 100 then ["Resume appears incomplete"] else []) ++
    (if !m.hasContactInfo then ["Missing contact information"] else []) ++
    (if !m.hasSkills && !m.hasExperience && !m.hasProjects then
       ["No substantive content detected"] else []) ++
    (if m.sectionCount < 2 then ["Missing standard resume sections"] else [])
  let qualityScore := qualityScoreOfMetrics m
  let qv := qualityAndValidity qualityScore
  { isValid := qv.2, quality := qv.1, qualityScore := qualityScore,
    issues := issues, contentMetrics := m }

-- ============================================================================
-- ApifyService (src/services/apifyService.ts)
-- ============================================================================

/-- Search configuration. Modelled from the spec: `ApifySearchConfig` comes
from `../types/jobs`, which is not part of this repository; the spec and the
default tables give a keyword list plus optional location / jobType /
experienceLevel / maxResults fields. `keywords` is optional because the
validator guards it with `!config.keywords`. -/
structure ApifySearchConfig where
  keywords : Option (List String)
  location : Option String
  jobType : Option String
  experienceLevel : Option String
  maxResults : Option Int
deriving DecidableEq, Repr

/-- Result record of `validateSearchConfig`. -/
structure ValidationOutcome where
  valid : Bool
  errors : List String
deriving DecidableEq, Repr

/-- `validateSearchConfig` (source lines 236-251). The `maxResults` range
check is guarded by JS truthiness (`config.maxResults && ...`), so a present
value of 0 skips the check. -/
def validateSearchConfig (config : ApifySearchConfig) : ValidationOutcome :=
  let keywordErrors : List String :=
    if (match config.keywords with
        | none => true
        | some ks => ks.length = 0) then
      ["At least one keyword is required"]
    else []
  let maxResultsErrors : List String :=
    match config.maxResults with
    | some n =>
        if n ≠ 0 ∧ (n < 1 ∨ 1000 < n) then ["Max results must be between 1 and 1000"]
        else []
    | none => []
  let errors := keywordErrors ++ maxResultsErrors
  { valid := errors.length = 0, errors := errors }

/-- One sync-log row. Modelled from the spec: `JobSyncLog` comes from
`../types/jobs`, which is not part of this repository; `getSyncStats` reads
its `status`, `jobs_fetched`, `jobs_created` and `created_at` fields, the
numeric ones guarded with `|| 0`, so they are optional. -/
structure JobSyncLog where
  status : String
  jobs_fetched : Option Int
  jobs_created : Option Int
  created_at : String
deriving DecidableEq, Repr

/-- Aggregate statistics returned by `getSyncStats`. -/
structure SyncStats where
  totalSyncs : Nat
  successfulSyncs : Nat
  failedSyncs : Nat
  totalJobsFetched : Int
  totalJobsCreated : Int
  lastSyncDate : Option String
deriving DecidableEq, Repr

/-- `getSyncStats` (source lines 198-222) as a function of the rows the
unordered `select('*')` returns: counts, filtered counts, reduced sums, and
`logs?.[0]?.created_at || null` (the first returned row, empty string
collapsing to null under `||`). -/
def getSyncStats (logs : List JobSyncLog) : SyncStats :=
  { totalSyncs := logs.length
    successfulSyncs := (logs.filter (fun l => l.status = "success")).length
    failedSyncs := (logs.filter (fun l => l.status = "failed")).length
    totalJobsFetched := logs.foldl (fun sum l => sum + l.jobs_fetched.getD 0) 0
    totalJobsCreated := logs.foldl (fun sum l => sum + l.jobs_created.getD 0) 0
    lastSyncDate :=
      match logs with
      | [] => none
      | l :: _ => if l.created_at = "" then none else some l.created_at }

/-- Job-fetch configuration row. Modelled from the spec: `JobFetchConfig`
comes from `../types/jobs`, which is not part of this repository;
`triggerManualSync` consults only `is_active` (plus the id used for lookup). -/
structure JobFetchConfig where
  id : String
  is_active : Bool
deriving DecidableEq, Repr

/-- Result record of `triggerManualSync` and `testApifyConnection`. -/
structure ServiceOutcome where
  success : Bool
  message : String
deriving DecidableEq, Repr

/-- `triggerManualSync` (source lines 89-116), with its two external effects
as explicit outcomes: `lookup` is what `getConfigById` produced (a database
error, no row, or a row) and `invokeErr` the error of
`supabase.functions.invoke`, when any. The `try` block is the `Except`
computation; the `catch` converts any thrown error into
`{success: false, message}`. -/
def triggerManualSync (lookup : Except String (Option JobFetchConfig))
    (invokeErr : Option String) : ServiceOutcome :=
  let attempt : Except String Unit := do
    let config ← match lookup with
      | .error e => .error e
      | .ok none => .error "Configuration not found"
      | .ok (some c) => .ok c
    if !config.is_active then
      .error "Configuration is not active"
    else
      match invokeErr with
      | some e => .error e
      | none => .ok ()
  match attempt with
  | .ok _ => { success := true, message := "Sync initiated successfully" }
  | .error e => { success := false, message := e }

/-- `testApifyConnection` (source lines 163-185): `fetchOutcome` is the result
of the HTTP call (a thrown network error, or a response with its `ok` flag);
a non-ok response throws inside the `try`, and the `catch` converts any
thrown error into `{success: false, message}`. -/
def testApifyConnection (fetchOutcome : Except String Bool) : ServiceOutcome :=
  match fetchOutcome with
  | .error e => { success := false, message := e }
  | .ok responseOk =>
      if !responseOk then
        { success := false, message := "Invalid API token or Actor ID" }
      else
        { success := true, message := "Connection successful" }

-- ============================================================================
-- Concrete test records
-- ============================================================================

/-- The all-zero content-metrics record (a concrete test input). -/
def zeroMetrics : ContentMetrics :=
  { wordCount := 0, sectionCount := 0, hasContactInfo := false, hasSkills := false,
    hasEducation := false, hasExperience := false, hasProjects := false,
    bulletCount := 0, uniqueSkillCount := 0 }

/-- A concrete invalid-quality assessment (a concrete test input). -/
def invalidAssessment : InputQualityAssessment :=
  { isValid := false, quality := .invalid, qualityScore := 0, issues := [],
    contentMetrics := zeroMetrics }

/-- A search config with the given keywords and maxResults and nothing else
(a concrete test input). -/
def mkSearchConfig (keywords : Option (List String)) (maxResults : Option Int) :
    ApifySearchConfig :=
  { keywords := keywords, location := none, jobType := none,
    experienceLevel := none, maxResults := maxResults }

-- ============================================================================
-- Claim theorems
-- ============================================================================

/-- C10: for every candidate level — fresher, junior, mid, senior, and any
unrecognized level routed through the senior default branch — the ten integer
weights of the table returned by `getNormalizedWeights` sum to exactly 100. -/
theorem c10_weights_sum_100 (level : CandidateLevel) :
    (getNormalizedWeights level).skills_keywords + (getNormalizedWeights level).experience +
      (getNormalizedWeights level).education + (getNormalizedWeights level).projects +
      (getNormalizedWeights level).certifications + (getNormalizedWeights level).basic_structure +
      (getNormalizedWeights level).content_structure + (getNormalizedWeights level).competitive +
      (getNormalizedWeights level).culture_fit + (getNormalizedWeights level).qualitative = 100 := by
  unfold getNormalizedWeights
  split_ifs <;> rfl

/-- C5: for every score at least 85, `calculateAlignedConfidence` returns
High for every quality assessment and every value of the hasJD flag — the
score short-circuit makes the result independent of all other inputs. -/
theorem c5_high_score_short_circuit (score : Rat) (inputQuality : InputQualityAssessment)
    (hasJD : Bool) (h : 85 ≤ score) :
    calculateAlignedConfidence score inputQuality hasJD = .High := by
  unfold calculateAlignedConfidence
  rw [if_pos h]

theorem c5_high_score_short_circuit_witness :
    (85 : Rat) ≤ 90 ∧ calculateAlignedConfidence 90 invalidAssessment false = .High :=
  ⟨by norm_num, c5_high_score_short_circuit 90 invalidAssessment false (by norm_num)⟩

/-- C4: `assessInputQuality` on empty resume text with no structured data
returns contentMetrics with wordCount 0, sectionCount 0 and all presence
booleans false, qualityScore 0, quality invalid, and isValid false. -/
theorem c4_empty_input_invalid :
    (assessInputQuality { resumeText := "", resumeData := none, userType := none }).contentMetrics =
        { wordCount := 0, sectionCount := 0, hasContactInfo := false, hasSkills := false,
          hasEducation := false, hasExperience := false, hasProjects := false,
          bulletCount := 0, uniqueSkillCount := 0 } ∧
      (assessInputQuality { resumeText := "", resumeData := none, userType := none }).qualityScore = 0 ∧
      (assessInputQuality { resumeText := "", resumeData := none, userType := none }).quality = .invalid ∧
      (assessInputQuality { resumeText := "", resumeData := none, userType := none }).isValid = false := by
  decide

/-- C1: for every baseScore, quality assessment and candidate level,
`calculateAdjustedScore` returns the quality multiplier looked up from the
quality label (excellent 1.00, good 0.95, fair 0.85, poor 0.70, invalid 0.40),
a candidate-level bonus of 5 exactly when the level is fresher, the quality is
not invalid, contentMetrics.hasProjects holds and uniqueSkillCount is at least
5 (else 0), and a final score round(baseScore * multiplier + bonus) clamped to
the range 0 to 100; in particular the final score at (80, invalid quality,
senior) is 32. -/
theorem c1_calculateAdjustedScore_spec :
    (∀ (baseScore : Rat) (q : InputQualityAssessment) (lvl : CandidateLevel),
      (calculateAdjustedScore baseScore q lvl).qualityMultiplier =
        (match q.quality with
         | .excellent => (1.0 : Rat)
         | .good => 0.95
         | .fair => 0.85
         | .poor => 0.70
         | .invalid => 0.40) ∧
      (calculateAdjustedScore baseScore q lvl).candidateLevelBonus =
        (if lvl = "fresher" ∧ q.quality ≠ .invalid ∧ q.contentMetrics.hasProjects = true ∧
            5 ≤ q.contentMetrics.uniqueSkillCount then (5 : Rat) else 0) ∧
      (calculateAdjustedScore baseScore q lvl).finalScore =
        min 100 (max 0 (jsRound (baseScore * (calculateAdjustedScore baseScore q lvl).qualityMultiplier +
          (calculateAdjustedScore baseScore q lvl).candidateLevelBonus))) ∧
      0 ≤ (calculateAdjustedScore baseScore q lvl).finalScore ∧
      (calculateAdjustedScore baseScore q lvl).finalScore ≤ 100) ∧
    (∀ q : InputQualityAssessment, q.quality = .invalid →
      (calculateAdjustedScore 80 q "senior").finalScore = 32) := by
  constructor
  · intro baseScore q lvl
    refine ⟨?_, ?_, ?_, ?_, ?_⟩
    · cases hq : q.quality <;> simp [calculateAdjustedScore, hq]
    · cases hq : q.quality <;>
        simp [calculateAdjustedScore, hq] <;>
        split_ifs <;> simp_all
    · cases hq : q.quality <;> simp [calculateAdjustedScore, hq]
    · simp [calculateAdjustedScore]
    · simp [calculateAdjustedScore]
  · intro q hq
    have h2 : jsRound (80 * (0.40 : Rat)) = 32 := by
      unfold jsRound
      rw [show (80 * (0.40 : Rat)) + 1 / 2 = 65 / 2 by norm_num]
      rw [Int.floor_eq_iff]
      norm_num
    simp [calculateAdjustedScore, hq, h2, min_def, max_def]

theorem c1_calculateAdjustedScore_spec_witness :
    (calculateAdjustedScore 80 invalidAssessment "senior").qualityMultiplier = 0.40 ∧
      (calculateAdjustedScore 80 invalidAssessment "senior").finalScore = 32 :=
  ⟨(c1_calculateAdjustedScore_spec.1 80 invalidAssessment "senior").1,
   c1_calculateAdjustedScore_spec.2 invalidAssessment rfl⟩

/-- C2: the quality score of `assessInputQuality` is the sum of the four
independent buckets (word count at thresholds 50/100/200/400 for 5/10/15/20,
section presence contact 5 skills 8 education 5 experience 7 projects 5,
content depth from bulletCount and uniqueSkillCount each at thresholds 2/5/10
for 5/10/15, section count at thresholds 1/2/3/5 for 5/10/15/20), so the
maximum attainable is 100, and metrics with wordCount at least 400, all five
presence booleans true, bulletCount and uniqueSkillCount at least 10 and
sectionCount at least 5 get quality score 100 and quality label excellent. -/
theorem c2_quality_score_buckets :
    (∀ input : NormalModeInput,
      (assessInputQuality input).qualityScore =
        wordCountPoints (assessInputQuality input).contentMetrics.wordCount +
          sectionPresencePoints (assessInputQuality input).contentMetrics +
          contentDepthPoints (assessInputQuality input).contentMetrics +
          sectionCountPoints (assessInputQuality input).contentMetrics.sectionCount ∧
      (assessInputQuality input).quality =
        (qualityAndValidity (assessInputQuality input).qualityScore).1) ∧
    (∀ m : ContentMetrics, qualityScoreOfMetrics m ≤ 100) ∧
    (∀ m : ContentMetrics,
      400 ≤ m.wordCount → m.hasContactInfo = true → m.hasSkills = true →
      m.hasEducation = true → m.hasExperience = true → m.hasProjects = true →
      10 ≤ m.bulletCount → 10 ≤ m.uniqueSkillCount → 5 ≤ m.sectionCount →
      qualityScoreOfMetrics m = 100 ∧
        (qualityAndValidity (qualityScoreOfMetrics m)).1 = .excellent) := by
  refine ⟨fun input => ⟨rfl, rfl⟩, fun m => ?_, fun m h1 h2 h3 h4 h5 h6 h7 h8 h9 => ?_⟩
  · have hw : wordCountPoints m.wordCount ≤ 20 := by
      unfold wordCountPoints; split_ifs <;> omega
    have hp : sectionPresencePoints m ≤ 30 := by
      unfold sectionPresencePoints; split_ifs <;> omega
    have hd : contentDepthPoints m ≤ 30 := by
      unfold contentDepthPoints; split_ifs <;> omega
    have hs : sectionCountPoints m.sectionCount ≤ 20 := by
      unfold sectionCountPoints; split_ifs <;> omega
    unfold qualityScoreOfMetrics
    omega
  · have h100 : qualityScoreOfMetrics m = 100 := by
      unfold qualityScoreOfMetrics wordCountPoints sectionPresencePoints
        contentDepthPoints sectionCountPoints
      simp [h1, h2, h3, h4, h5, h6, h7, h8, h9]
    refine ⟨h100, ?_⟩
    rw [h100]
    rfl

theorem c2_quality_score_buckets_witness :
    qualityScoreOfMetrics
        { wordCount := 400, sectionCount := 5, hasContactInfo := true, hasSkills := true,
          hasEducation := true, hasExperience := true, hasProjects := true,
          bulletCount := 10, uniqueSkillCount := 10 } = 100 ∧
      (qualityAndValidity (qualityScoreOfMetrics
        { wordCount := 400, sectionCount := 5, hasContactInfo := true, hasSkills := true,
          hasEducation := true, hasExperience := true, hasProjects := true,
          bulletCount := 10, uniqueSkillCount := 10 })).1 = .excellent :=
  c2_quality_score_buckets.2.2
    { wordCount := 400, sectionCount := 5, hasContactInfo := true, hasSkills := true,
      hasEducation := true, hasExperience := true, hasProjects := true,
      bulletCount := 10, uniqueSkillCount := 10 }
    (by norm_num) rfl rfl rfl rfl rfl (by norm_num) (by norm_num) (by norm_num)

/-- C3: for every input tier-score map and candidate level,
`applyNormalizedWeights` returns a map with exactly the tier keys of the input
(no tier synthesized or dropped); for each input tier the weight is replaced
by the level table value, falling back to the existing weight when the key is
absent from the table, `weighted_contribution` is exactly
percentage * newWeight / 100, and the other fields are unchanged. -/
theorem c3_applyNormalizedWeights_spec (tierScores : TierScores)
    (candidateLevel : CandidateLevel) :
    ((applyNormalizedWeights tierScores candidateLevel).map Prod.fst =
        tierScores.map Prod.fst) ∧
    (∀ key tier, (key, tier) ∈ tierScores →
      (key, { tier with
                weight := ((weightsField (getNormalizedWeights candidateLevel) key).map
                  (fun n => (n : Rat))).getD tier.weight,
                weighted_contribution := tier.percentage *
                  (((weightsField (getNormalizedWeights candidateLevel) key).map
                    (fun n => (n : Rat))).getD tier.weight) / 100 }) ∈
        applyNormalizedWeights tierScores candidateLevel) := by
  constructor
  · simp only [applyNormalizedWeights, List.map_map]
    rfl
  · intro key tier hmem
    exact List.mem_map_of_mem _ hmem

theorem c3_applyNormalizedWeights_spec_witness :
    ("experience",
        ({ percentage := 50, weight := 0, weighted_contribution := 0, rest := "r" } : Tier)) ∈
      applyNormalizedWeights
        [("experience", { percentage := 50, weight := 10, weighted_contribution := 5, rest := "r" })]
        "fresher" := by
  have h := (c3_applyNormalizedWeights_spec
      [("experience", { percentage := 50, weight := 10, weighted_contribution := 5, rest := "r" })]
      "fresher").2 "experience"
      { percentage := 50, weight := 10, weighted_contribution := 5, rest := "r" }
      (by simp)
  have hw : weightsField (getNormalizedWeights "fresher") "experience" = some 0 := by rfl
  rw [hw] at h
  norm_num at h
  exact h

/-- C6 (amended): `checkSkillsPresence` uses the regex fallback on the raw
text exactly when the structured skills source is absent (no resume data, or
no skills field) or an empty array; when the skills array is non-empty the
result is the structured check — some category with a non-empty list — even
when that check is false, with no fallback to the text. -/
theorem c6_skills_two_stage :
    (∀ (text : String) (resumeData : Option ResumeData),
      (match resumeData with
       | none => True
       | some rd => rd.skills = none ∨ rd.skills = some []) →
      checkSkillsPresence text resumeData = skillsTextFallback text) ∧
    (∀ (text : String) (rd : ResumeData) (cats : List SkillCategory),
      rd.skills = some cats → cats ≠ [] →
      checkSkillsPresence text (some rd) =
        cats.any (fun s =>
          match s.list with
          | some l => 0 < l.length
          | none => false)) := by
  constructor
  · intro text resumeData h
    match resumeData with
    | none => rfl
    | some rd =>
        rcases h with h | h <;> simp [checkSkillsPresence, h]
  · intro text rd cats hcats hne
    have hlen : 0 < cats.length := List.length_pos.mpr hne
    simp [checkSkillsPresence, hcats, hlen]

theorem c6_skills_two_stage_witness :
    checkSkillsPresence "python"
        (some { skills := some [], education := none, workExperience := none,
                projects := none }) = skillsTextFallback "python" ∧
      checkSkillsPresence "nothing here"
        (some { skills := some [{ list := some ["Go"] }], education := none,
                workExperience := none, projects := none }) = true :=
  ⟨c6_skills_two_stage.1 "python"
      (some { skills := some [], education := none, workExperience := none,
              projects := none }) (Or.inr rfl),
   by
    have h := c6_skills_two_stage.2 "nothing here"
      { skills := some [{ list := some ["Go"] }], education := none,
        workExperience := none, projects := none }
      [{ list := some ["Go"] }] rfl (by simp)
    simpa using h⟩

/-- C6 counterexample: with a non-empty skills array in which no category has
a non-empty list, `checkSkillsPresence` returns the structured result (false)
and does NOT fall back to the regex on the raw text, which would return true
for the text "python" — refuting the claim that the fallback decides whenever
no category has a non-empty list. -/
theorem c6_structured_empty_categories_no_fallback :
    checkSkillsPresence "python"
        (some { skills := some [{ list := some [] }], education := none,
                workExperience := none, projects := none }) = false ∧
      skillsTextFallback "python" = true ∧
      checkSkillsPresence "python"
          (some { skills := some [{ list := some [] }], education := none,
                  workExperience := none, projects := none }) ≠
        skillsTextFallback "python" := by
  refine ⟨by decide, by decide, ?_⟩
  decide

/-- C7 (amended): `validateSearchConfig` returns valid = false with the
keyword error for every config whose keywords list is missing or empty, and
valid = false with the range error for every config whose maxResults is
present, nonzero (JS truthiness guard) and outside 1..1000; it returns
valid = true with an empty error list when the keywords list is non-empty and
maxResults is absent, zero, or within 1..1000. -/
theorem c7_validateSearchConfig_spec :
    (∀ config : ApifySearchConfig,
      (config.keywords = none ∨ config.keywords = some []) →
      (validateSearchConfig config).valid = false ∧
        "At least one keyword is required" ∈ (validateSearchConfig config).errors) ∧
    (∀ (config : ApifySearchConfig) (n : Int),
      config.maxResults = some n → n ≠ 0 → (n < 1 ∨ 1000 < n) →
      (validateSearchConfig config).valid = false ∧
        "Max results must be between 1 and 1000" ∈ (validateSearchConfig config).errors) ∧
    (∀ (config : ApifySearchConfig) (ks : List String),
      config.keywords = some ks → ks ≠ [] →
      (config.maxResults = none ∨ config.maxResults = some 0 ∨
        (∃ n : Int, config.maxResults = some n ∧ 1 ≤ n ∧ n ≤ 1000)) →
      (validateSearchConfig config).valid = true ∧
        (validateSearchConfig config).errors = []) := by
  refine ⟨?_, ?_, ?_⟩
  · intro config h
    rcases h with h | h <;> simp [validateSearchConfig, h]
  · intro config n hmax hne hout
    have hcond : n ≠ 0 ∧ (n < 1 ∨ 1000 < n) := ⟨hne, hout⟩
    simp [validateSearchConfig, hmax, hcond]
  · intro config ks hks hne hmax
    have hklen : ¬ ks.length = 0 := by
      simpa using hne
    rcases hmax with h | h | ⟨n, hn, h1, h2⟩
    · simp [validateSearchConfig, hks, hklen, h]
    · simp [validateSearchConfig, hks, hklen, h]
    · have hcond : ¬ (n ≠ 0 ∧ (n < 1 ∨ 1000 < n)) := by
        push_neg
        intro _
        omega
      simp [validateSearchConfig, hks, hklen, hn, hcond]

theorem c7_validateSearchConfig_spec_witness :
    ((validateSearchConfig (mkSearchConfig none none)).valid = false ∧
      "At least one keyword is required" ∈
        (validateSearchConfig (mkSearchConfig none none)).errors) ∧
    ((validateSearchConfig (mkSearchConfig (some ["software"]) (some 2000))).valid = false ∧
      "Max results must be between 1 and 1000" ∈
        (validateSearchConfig (mkSearchConfig (some ["software"]) (some 2000))).errors) ∧
    ((validateSearchConfig (mkSearchConfig (some ["software"]) (some 50))).valid = true ∧
      (validateSearchConfig (mkSearchConfig (some ["software"]) (some 50))).errors = []) :=
  ⟨c7_validateSearchConfig_spec.1 (mkSearchConfig none none) (Or.inl rfl),
   c7_validateSearchConfig_spec.2.1 (mkSearchConfig (some ["software"]) (some 2000)) 2000
     rfl (by norm_num) (by norm_num),
   c7_validateSearchConfig_spec.2.2 (mkSearchConfig (some ["software"]) (some 50)) ["software"]
     rfl (by simp) (Or.inr (Or.inr ⟨50, rfl, by norm_num, by norm_num⟩))⟩

/-- C7 counterexample: a config with a non-empty keyword list and
maxResults = 0 — present and outside the range 1..1000 — still validates as
true with no errors, because the JS truthiness guard `config.maxResults &&`
skips the range check at 0; this refutes the claim that every present
out-of-range maxResults yields valid = false. -/
theorem c7_zero_maxResults_validates :
    (validateSearchConfig (mkSearchConfig (some ["software"]) (some 0))).valid = true ∧
      (validateSearchConfig (mkSearchConfig (some ["software"]) (some 0))).errors = [] ∧
      ¬ (1 ≤ (0 : Int) ∧ (0 : Int) ≤ 1000) := by
  refine ⟨by decide, by decide, ?_⟩
  decide

theorem foldl_add_map_sum {α : Type} (f : α → Int) (l : List α) (s : Int) :
    l.foldl (fun sum x => sum + f x) s = s + (l.map f).sum := by
  induction l generalizing s with
  | nil => simp
  | cons x xs ih =>
      simp [List.foldl, ih, add_assoc]

/-- C8 (amended): for every contents of the sync-log table, `getSyncStats`
returns totalSyncs equal to the number of logs, successfulSyncs and
failedSyncs equal to the counts of logs with status success and failed,
totalJobsFetched and totalJobsCreated equal to the sums of the jobs_fetched
and jobs_created fields, and lastSyncDate equal to the created_at of the
FIRST row of the unordered select result (null when there are no logs or the
field is the empty string) — not necessarily of the most recent log, since
the query imposes no ordering. -/
theorem c8_getSyncStats_spec (logs : List JobSyncLog) :
    (getSyncStats logs).totalSyncs = logs.length ∧
    (getSyncStats logs).successfulSyncs =
      (logs.filter (fun l => l.status = "success")).length ∧
    (getSyncStats logs).failedSyncs =
      (logs.filter (fun l => l.status = "failed")).length ∧
    (getSyncStats logs).totalJobsFetched =
      (logs.map (fun l => l.jobs_fetched.getD 0)).sum ∧
    (getSyncStats logs).totalJobsCreated =
      (logs.map (fun l => l.jobs_created.getD 0)).sum ∧
    (getSyncStats logs).lastSyncDate =
      (match logs with
       | [] => none
       | l :: _ => if l.created_at = "" then none else some l.created_at) := by
  refine ⟨rfl, rfl, rfl, ?_, ?_, rfl⟩
  · have h := foldl_add_map_sum (fun l => l.jobs_fetched.getD 0) logs 0
    simpa [getSyncStats] using h
  · have h := foldl_add_map_sum (fun l => l.jobs_created.getD 0) logs 0
    simpa [getSyncStats] using h

/-- C8 counterexample: on a table whose first returned row is older than a
later row, `getSyncStats` reports the first row's created_at as lastSyncDate,
not the created_at of the most recent log — the second row is strictly more
recent and every row is at most it, yet the result differs from it. -/
theorem c8_lastSyncDate_not_most_recent :
    (getSyncStats
        [{ status := "success", jobs_fetched := some 3, jobs_created := some 2,
           created_at := "2024-01-01T00:00:00Z" },
         { status := "failed", jobs_fetched := some 5, jobs_created := some 0,
           created_at := "2024-06-01T00:00:00Z" }]).lastSyncDate =
      some "2024-01-01T00:00:00Z" ∧
    ({ status := "failed", jobs_fetched := some 5, jobs_created := some 0,
       created_at := "2024-06-01T00:00:00Z" } : JobSyncLog) ∈
      [({ status := "success", jobs_fetched := some 3, jobs_created := some 2,
          created_at := "2024-01-01T00:00:00Z" } : JobSyncLog),
       { status := "failed", jobs_fetched := some 5, jobs_created := some 0,
         created_at := "2024-06-01T00:00:00Z" }] ∧
    "2024-01-01T00:00:00Z" < "2024-06-01T00:00:00Z" ∧
    some "2024-01-01T00:00:00Z" ≠ some "2024-06-01T00:00:00Z" := by
  refine ⟨by decide, by decide, ?_, by decide⟩
  rw [String.lt_iff_toList_lt]
  decide

/-- C9: `triggerManualSync` and `testApifyConnection` never throw: every
failure cause — database lookup error, configuration not found, configuration
inactive, remote invocation error, network or API error — produces a
{success: false, message} result, and the remaining cases produce
{success: true, message}. -/
theorem c9_sync_and_test_never_throw :
    (∀ (lookup : Except String (Option JobFetchConfig)) (invokeErr : Option String),
      (∀ e, lookup = .error e →
        triggerManualSync lookup invokeErr = { success := false, message := e }) ∧
      (lookup = .ok none →
        triggerManualSync lookup invokeErr =
          { success := false, message := "Configuration not found" }) ∧
      (∀ c, lookup = .ok (some c) → c.is_active = false →
        triggerManualSync lookup invokeErr =
          { success := false, message := "Configuration is not active" }) ∧
      (∀ c e, lookup = .ok (some c) → c.is_active = true → invokeErr = some e →
        triggerManualSync lookup invokeErr = { success := false, message := e }) ∧
      (∀ c, lookup = .ok (some c) → c.is_active = true → invokeErr = none →
        triggerManualSync lookup invokeErr =
          { success := true, message := "Sync initiated successfully" })) ∧
    (∀ fetchOutcome : Except String Bool,
      (∀ e, fetchOutcome = .error e →
        testApifyConnection fetchOutcome = { success := false, message := e }) ∧
      (fetchOutcome = .ok false →
        testApifyConnection fetchOutcome =
          { success := false, message := "Invalid API token or Actor ID" }) ∧
      (fetchOutcome = .ok true →
        testApifyConnection fetchOutcome =
          { success := true, message := "Connection successful" })) := by
  constructor
  · intro lookup invokeErr
    refine ⟨?_, ?_, ?_, ?_, ?_⟩
    · intro e he
      subst he
      rfl
    · intro he
      subst he
      rfl
    · intro c hc hact
      subst hc
      obtain ⟨cid, cact⟩ := c
      cases cact
      · rfl
      · exact absurd hact (by simp)
    · intro c e hc hact hi
      subst hc
      subst hi
      obtain ⟨cid, cact⟩ := c
      cases cact
      · exact absurd hact (by simp)
      · rfl
    · intro c hc hact hi
      subst hc
      subst hi
      obtain ⟨cid, cact⟩ := c
      cases cact
      · exact absurd hact (by simp)
      · rfl
  · intro fetchOutcome
    refine ⟨?_, ?_, ?_⟩
    · intro e he
      subst he
      rfl
    · intro he
      subst he
      rfl
    · intro he
      subst he
      rfl

theorem c9_sync_and_test_never_throw_witness :
    triggerManualSync (.ok (some { id := "cfg-1", is_active := true })) none =
        { success := true, message := "Sync initiated successfully" } ∧
      triggerManualSync (.ok (some { id := "cfg-2", is_active := false })) none =
        { success := false, message := "Configuration is not active" } ∧
      testApifyConnection (.error "network down") =
        { success := false, message := "network down" } :=
  ⟨((c9_sync_and_test_never_throw.1 (.ok (some { id := "cfg-1", is_active := true }))
      none).2.2.2.2) { id := "cfg-1", is_active := true } rfl rfl rfl,
   ((c9_sync_and_test_never_throw.1 (.ok (some { id := "cfg-2", is_active := false }))
      none).2.2.1) { id := "cfg-2", is_active := false } rfl rfl,
   (c9_sync_and_test_never_throw.2 (.error "network down")).1 "network down" rfl⟩
